import Mathlib

/-!
# Booking controller

A shallow embedding of `src/controller/bookingController.js`: the handlers
`createBooking`, `getBookings`, `getBookingById`, `updateBooking` and
`deleteBooking`, run one request at a time against an in-memory collection.

Conventions of the embedding.

* A JavaScript `Date` is its time value: `some t` (milliseconds since the
  epoch) or `none` for an Invalid Date, the one for which `isNaN` is true.
* Numbers are IEEE-754 binary64 values: a finite one is the rational it
  denotes, and every arithmetic operation rounds its exact result to the
  nearest such value, ties to even, overflowing to an infinity. The two zeros
  are one value: the handlers never divide by a variable, and the sign of a
  zero cannot be seen in a JSON response.
* A field that may be `undefined` in the request body is an `Option`; a number
  in the body is the rational its JSON literal denotes, and the handler sees
  the double nearest to it.
* An identifier is a Mongoose ObjectId. The `id` a handler receives is
  `req.params.id` after the cast `findById` applies to it: `none` when the
  string is not an ObjectId, in which case `findById` throws and the `catch`
  branch of the handler answers 500.
* The collection is the list of its documents in insertion order. Finding,
  rewriting and removing a stored document do not throw. The `save()` of a
  new document runs the schema of `models/Booking`, which is not among the
  sources: whether it accepts the document is the parameter `accepts` of
  `createBooking`.
-/

namespace BookingController

/-! ## Values -/

/-- A JavaScript number: a finite double (the rational it denotes), one of
the two infinities, or `NaN`. -/
inductive JSNum where
  | num (q : ℚ)
  | posInf
  | negInf
  | nan
  deriving DecidableEq

/-- Bisection for the binary exponent: with `2 ^ lo ≤ a < 2 ^ hi` it returns
the `e` with `2 ^ e ≤ a < 2 ^ (e + 1)` once the interval has length one. -/
def exponentSearch (a : ℚ) : Nat → Int → Int → Int
  | 0, lo, _ => lo
  | fuel + 1, lo, hi =>
    let mid := (lo + hi) / 2
    if (2 : ℚ) ^ mid ≤ a then exponentSearch a fuel mid hi else exponentSearch a fuel lo mid

/-- The exponent of the binade of a non-negative rational, kept within the
range of binary64: -1022 for zero and the subnormals, at most 1023. -/
def exponent (a : ℚ) : Int :=
  exponentSearch a 11 (-1022) 1024

/-- The integer nearest to a non-negative rational, ties to the even one. -/
def roundHalfEven (a : ℚ) : Int :=
  let f := Int.floor a
  let r := a - f
  if r < 1 / 2 then f
  else if 1 / 2 < r then f + 1
  else if f % 2 = 0 then f else f + 1

/-- Rounding to binary64, nearest with ties to even: the magnitude is rounded
to a multiple of `2 ^ (exponent - 52)`, that is to 53 significant bits (fewer
for subnormals), and a result of `2 ^ 1024` or more is an infinity. -/
def roundDouble (q : ℚ) : JSNum :=
  let a := |q|
  let quantum : ℚ := (2 : ℚ) ^ (exponent a - 52)
  let r : ℚ := (roundHalfEven (a / quantum) : ℚ) * quantum
  if (2 : ℚ) ^ (1024 : Int) ≤ r then (if 0 < q then JSNum.posInf else JSNum.negInf)
  else JSNum.num (if 0 < q then r else -r)

/-- A rational that is a double: rounding leaves it as it is. -/
def isDouble (q : ℚ) : Prop :=
  roundDouble q = JSNum.num q

namespace JSNum

/-- The `+` of two numbers. -/
def add : JSNum → JSNum → JSNum
  | num a, num b => roundDouble (a + b)
  | nan, _ => nan
  | _, nan => nan
  | posInf, negInf => nan
  | negInf, posInf => nan
  | posInf, _ => posInf
  | _, posInf => posInf
  | negInf, _ => negInf
  | _, negInf => negInf

/-- The `-` of two numbers. -/
def sub : JSNum → JSNum → JSNum
  | num a, num b => roundDouble (a - b)
  | nan, _ => nan
  | _, nan => nan
  | posInf, posInf => nan
  | negInf, negInf => nan
  | posInf, _ => posInf
  | _, negInf => posInf
  | negInf, _ => negInf
  | _, posInf => negInf

/-- The sign of an infinity times a finite factor. -/
def scaleInf (positive : Bool) (b : ℚ) : JSNum :=
  if b = 0 then nan
  else if decide (0 < b) = positive then posInf else negInf

/-- The `*` of two numbers. -/
def mul : JSNum → JSNum → JSNum
  | num a, num b => roundDouble (a * b)
  | nan, _ => nan
  | _, nan => nan
  | posInf, num b => scaleInf true b
  | negInf, num b => scaleInf false b
  | num a, posInf => scaleInf true a
  | num a, negInf => scaleInf false a
  | posInf, posInf => posInf
  | negInf, negInf => posInf
  | posInf, negInf => negInf
  | negInf, posInf => negInf

/-- The quotient `x / 100` of line 63. -/
def div100 : JSNum → JSNum
  | num a => roundDouble (a / 100)
  | posInf => posInf
  | negInf => negInf
  | nan => nan

/-- Truthiness of a number: zero and `NaN` are falsy. -/
def truthy : JSNum → Bool
  | num a => decide (a ≠ 0)
  | posInf => true
  | negInf => true
  | nan => false

end JSNum

/-- A number of the request body as the handler sees it, with the default of
the destructuring (lines 20-24) for a missing one. -/
def numberOr (field : Option ℚ) (default : JSNum) : JSNum :=
  match field with
  | none => default
  | some q => roundDouble q

/-- The value of `field || 0` at line 61: the number when it is truthy, else
0; a missing field is `undefined`, which is falsy. -/
def orZero (field : Option ℚ) : JSNum :=
  match field with
  | none => JSNum.num 0
  | some q => if (roundDouble q).truthy then roundDouble q else JSNum.num 0

/-- A Mongoose ObjectId, as the number its twelve bytes denote. -/
structure ObjectId where
  value : Nat
  deriving DecidableEq

/-- What `thaliPrices[key]` evaluates to: a price of the table, a member that
the object literal inherits from `Object.prototype` (a function or an object,
truthy and not a number), or `undefined`. -/
inductive ThaliValue where
  | price (q : ℚ)
  | inherited
  | undefined
  deriving DecidableEq

/-- An add-on item of a booking, as the request body has it; `price` and
`quantity` may be absent. -/
structure Item where
  price : Option ℚ
  quantity : Option ℚ
  deriving DecidableEq

/-- The document built at lines 67-82 and kept in the collection. -/
structure Booking where
  id : ObjectId
  customerName : Option String
  customerNumber : Option String
  eventDate : List Int
  eventType : Option String
  hallCharges : JSNum
  selectedThali : Option String
  thaliPrice : ThaliValue
  numberOfPeople : JSNum
  items : List Item
  totalPrice : JSNum
  discount : JSNum
  finalPrice : JSNum
  eventTiming : Option String
  paymentStatus : Option String
  deriving DecidableEq

/-- The collection behind the `Booking` model. -/
abbrev Store := List Booking

/-- The body of a create request, after the destructuring of lines 14-27 but
before its defaults are applied. `startDate` and `endDate` hold the time
values of `new Date(startDate)` and `new Date(endDate)`; a number is the
rational its JSON literal denotes. -/
structure CreateRequest where
  customerName : Option String
  customerNumber : Option String
  startDate : Option Int
  endDate : Option Int
  eventType : Option String
  hallCharges : Option ℚ
  items : Option (List Item)
  selectedThali : Option String
  numberOfPeople : Option ℚ
  discount : Option ℚ
  paymentStatus : Option String
  eventTiming : Option String

/-- The texts the handlers answer with. -/
inductive Message where
  /-- "Invalid start or end date format" -/
  | invalidDateFormat
  /-- "End date must be after or equal to the start date." -/
  | endBeforeStart
  /-- "A booking already exists for the selected ... slot on this date." -/
  | slotAlreadyBooked
  /-- "Invalid thali type selected." -/
  | invalidThali
  /-- "Failed to create booking." -/
  | failedToCreate
  /-- "Failed to fetch booking." -/
  | failedToFetch
  /-- "Failed to update booking." -/
  | failedToUpdate
  /-- "Failed to delete booking." -/
  | failedToDelete
  /-- "Booking not found." -/
  | bookingNotFound
  /-- "Invalid payment status. It must be Pending or Successful." -/
  | invalidPaymentStatus
  deriving DecidableEq

/-- What a handler sends back. -/
inductive Response where
  /-- `res.status(code).json({ message })` with an error status. -/
  | error (status : Nat) (message : Message)
  /-- Status 201 with the saved booking. -/
  | created (booking : Booking)
  /-- Status 200 with all bookings. -/
  | list (bookings : List Booking)
  /-- Status 200 with one booking. -/
  | found (booking : Booking)
  /-- Status 200 with the updated booking. -/
  | updated (booking : Booking)
  /-- Status 200, "Booking deleted successfully!". -/
  | deleted
  deriving DecidableEq

/-! ## The price table -/

/-- The table of lines 5-9. -/
def thaliPrices : List (String × ℚ) :=
  [("Normal", 200), ("Supreme", 500), ("Deluxe", 800)]

/-- The property names every object literal inherits from `Object.prototype`. -/
def objectPrototypeKeys : List String :=
  ["constructor", "__defineGetter__", "__defineSetter__", "hasOwnProperty",
   "__lookupGetter__", "__lookupSetter__", "isPrototypeOf", "propertyIsEnumerable",
   "toString", "valueOf", "__proto__", "toLocaleString"]

/-- The lookup `thaliPrices[selectedThali]` of line 56: own entries first, then
the prototype; a missing `selectedThali` reads the key "undefined", which
nobody defines. -/
def thaliPricesGet : Option String → ThaliValue
  | none => ThaliValue.undefined
  | some key =>
    match thaliPrices.lookup key with
    | some p => ThaliValue.price p
    | none => if key ∈ objectPrototypeKeys then ThaliValue.inherited else ThaliValue.undefined

/-- Truthiness of a looked-up value, as `!thaliPrice` at line 57 tests it. -/
def ThaliValue.truthy : ThaliValue → Bool
  | ThaliValue.price q => decide (q ≠ 0)
  | ThaliValue.inherited => true
  | ThaliValue.undefined => false

/-- The numeric value a looked-up value has under `*`. -/
def ThaliValue.toNumber : ThaliValue → JSNum
  | ThaliValue.price q => JSNum.num q
  | ThaliValue.inherited => JSNum.nan
  | ThaliValue.undefined => JSNum.nan

/-! ## Totals -/

/-- The locals of lines 60-64. -/
structure Totals where
  cateringTotal : JSNum
  itemTotal : JSNum
  initialTotal : JSNum
  discountAmount : JSNum
  finalPrice : JSNum
  deriving DecidableEq

/-- The reduction of line 61: `sum + (item.price || 0) * (item.quantity || 0)`
from 0. -/
def itemTotal (items : List Item) : JSNum :=
  items.foldl
    (fun sum item => JSNum.add sum (JSNum.mul (orZero item.price) (orZero item.quantity)))
    (JSNum.num 0)

/-- Lines 60-64. -/
def computeTotals (thaliPrice : ThaliValue) (hallCharges : JSNum) (items : List Item)
    (numberOfPeople discount : JSNum) : Totals :=
  let cateringTotal := JSNum.mul thaliPrice.toNumber numberOfPeople
  let itemTotal := itemTotal items
  let initialTotal := JSNum.add (JSNum.add hallCharges itemTotal) cateringTotal
  let discountAmount := JSNum.mul (JSNum.div100 discount) initialTotal
  let finalPrice := JSNum.sub initialTotal discountAmount
  { cateringTotal := cateringTotal, itemTotal := itemTotal, initialTotal := initialTotal,
    discountAmount := discountAmount, finalPrice := finalPrice }

/-! ## The collection -/

/-- The filter of lines 44-47: some element of `eventDate` lies between the
two parsed dates, and `eventTiming` is the requested one. -/
def slotQuery (parsedStartDate parsedEndDate : Int) (eventTiming : Option String)
    (b : Booking) : Bool :=
  b.eventDate.any (fun d => decide (parsedStartDate ≤ d) && decide (d ≤ parsedEndDate))
    && decide (b.eventTiming = eventTiming)

/-- The call `Booking.findOne(filter)`: the first document that matches. -/
def findOne (store : Store) (filter : Booking → Bool) : Option Booking :=
  store.find? filter

/-- The call `Booking.findById(id)` for an id that is an ObjectId. -/
def findById (store : Store) (id : ObjectId) : Option Booking :=
  store.find? (fun b => decide (b.id = id))

/-- Saving a loaded document: the first document with its id is replaced. -/
def updateOne (id : ObjectId) (f : Booking → Booking) : Store → Store
  | [] => []
  | b :: rest => if b.id = id then f b :: rest else b :: updateOne id f rest

/-- Removing a loaded document: the first document with its id goes. -/
def deleteOne (id : ObjectId) : Store → Store
  | [] => []
  | b :: rest => if b.id = id then rest else b :: deleteOne id rest

/-! ## The handlers -/

/-- The document of lines 67-82. -/
def newBooking (newId : ObjectId) (req : CreateRequest) (parsedStartDate parsedEndDate : Int)
    (thaliPrice : ThaliValue) : Booking :=
  let hallCharges := numberOr req.hallCharges (JSNum.num 0)
  let items := req.items.getD []
  let numberOfPeople := numberOr req.numberOfPeople (JSNum.num 0)
  let discount := numberOr req.discount (JSNum.num 0)
  let totals := computeTotals thaliPrice hallCharges items numberOfPeople discount
  { id := newId
    customerName := req.customerName
    customerNumber := req.customerNumber
    eventDate := [parsedStartDate, parsedEndDate]
    eventType := req.eventType
    hallCharges := hallCharges
    selectedThali := req.selectedThali
    thaliPrice := thaliPrice
    numberOfPeople := numberOfPeople
    items := items
    totalPrice := totals.initialTotal
    discount := discount
    finalPrice := totals.finalPrice
    eventTiming := req.eventTiming
    paymentStatus := req.paymentStatus }

/-- The handler `createBooking`, lines 13-91. `newId` is the identifier the
new document receives; `accepts` is the verdict of `save()` on a new document,
which runs the schema of `models/Booking`. -/
def createBooking (accepts : Booking → Bool) (newId : ObjectId) (store : Store)
    (req : CreateRequest) : Response × Store :=
  match req.startDate, req.endDate with
  | some parsedStartDate, some parsedEndDate =>
    if parsedEndDate < parsedStartDate then
      (Response.error 400 Message.endBeforeStart, store)
    else
      match findOne store (slotQuery parsedStartDate parsedEndDate req.eventTiming) with
      | some _ => (Response.error 400 Message.slotAlreadyBooked, store)
      | none =>
        let thaliPrice := thaliPricesGet req.selectedThali
        if !thaliPrice.truthy then
          (Response.error 400 Message.invalidThali, store)
        else
          let booking := newBooking newId req parsedStartDate parsedEndDate thaliPrice
          if accepts booking then
            (Response.created booking, store ++ [booking])
          else
            (Response.error 500 Message.failedToCreate, store)
  | _, _ => (Response.error 400 Message.invalidDateFormat, store)

/-- The handler `getBookings`, lines 98-107. -/
def getBookings (store : Store) : Response × Store :=
  (Response.list store, store)

/-- The handler `getBookingById`, lines 110-122. -/
def getBookingById (store : Store) (id : Option ObjectId) : Response × Store :=
  match id with
  | none => (Response.error 500 Message.failedToFetch, store)
  | some id =>
    match findById store id with
    | none => (Response.error 404 Message.bookingNotFound, store)
    | some booking => (Response.found booking, store)

/-- The test `list.includes(value)` of line 130 on a value that may be
`undefined`. -/
def includes (list : List String) : Option String → Bool
  | none => false
  | some value => list.contains value

/-- The handler `updateBooking`, lines 126-149. -/
def updateBooking (store : Store) (id : Option ObjectId) (paymentStatus : Option String) :
    Response × Store :=
  if !includes ["Pending", "Successful"] paymentStatus then
    (Response.error 400 Message.invalidPaymentStatus, store)
  else
    match id with
    | none => (Response.error 500 Message.failedToUpdate, store)
    | some id =>
      match findById store id with
      | none => (Response.error 404 Message.bookingNotFound, store)
      | some booking =>
        let set := fun (b : Booking) => { b with paymentStatus := paymentStatus }
        (Response.updated (set booking), updateOne id set store)

/-- The handler `deleteBooking`, lines 155-169. -/
def deleteBooking (store : Store) (id : Option ObjectId) : Response × Store :=
  match id with
  | none => (Response.error 500 Message.failedToDelete, store)
  | some id =>
    match findById store id with
    | none => (Response.error 404 Message.bookingNotFound, store)
    | some _ => (Response.deleted, deleteOne id store)

/-! ## Exact runs of the arithmetic -/

/-- The total of line 61 over items that all carry a price and a quantity,
given as pairs. -/
def pairsTotal (pairs : List (ℚ × ℚ)) : JSNum :=
  pairs.foldl
    (fun sum pq => JSNum.add sum (JSNum.mul (roundDouble pq.1) (roundDouble pq.2)))
    (JSNum.num 0)

/-- No step of the reduction of line 61 rounds, starting from the sum `acc`. -/
def exactItems : ℚ → List (ℚ × ℚ) → Prop
  | _, [] => True
  | acc, pq :: rest =>
    isDouble pq.1 ∧ isDouble pq.2 ∧ isDouble (pq.1 * pq.2) ∧ isDouble (acc + pq.1 * pq.2) ∧
      exactItems (acc + pq.1 * pq.2) rest

/-- No operation of lines 60-62 rounds. -/
def exactTotal (hallCharges numberOfPeople p : ℚ) (pairs : List (ℚ × ℚ)) : Prop :=
  isDouble hallCharges ∧ isDouble numberOfPeople ∧ isDouble (p * numberOfPeople) ∧
    exactItems 0 pairs ∧
    isDouble (hallCharges + (pairs.map (fun pq => pq.1 * pq.2)).sum) ∧
    isDouble (hallCharges + (pairs.map (fun pq => pq.1 * pq.2)).sum + p * numberOfPeople)

/-- No operation of lines 63-64 rounds, for the total `t`. -/
def exactDiscount (discount t : ℚ) : Prop :=
  isDouble discount ∧ isDouble (discount / 100) ∧ isDouble (discount / 100 * t) ∧
    isDouble (t - discount / 100 * t)

/-! ## Sequences of calls -/

/-- One call of a handler that writes, with what the environment supplies. -/
inductive Call where
  | create (accepts : Booking → Bool) (newId : ObjectId) (req : CreateRequest)
  | update (id : Option ObjectId) (paymentStatus : Option String)
  | delete (id : Option ObjectId)

/-- The collection after one call. -/
def Call.run (store : Store) : Call → Store
  | Call.create accepts newId req => (createBooking accepts newId store req).2
  | Call.update id paymentStatus => (updateBooking store id paymentStatus).2
  | Call.delete id => (deleteBooking store id).2

/-- The collection after the calls, one at a time, from the empty collection. -/
def runCalls (calls : List Call) : Store :=
  calls.foldl Call.run []

/-- A collection some sequence of calls leads to. -/
def Reachable (store : Store) : Prop :=
  ∃ calls : List Call, runCalls calls = store

/-- Two stored ranges [a.start, a.end] and [b.start, b.end] intersect:
a.start <= b.end and b.start <= a.end. -/
def rangesOverlap (a b : Booking) : Prop :=
  match a.eventDate, b.eventDate with
  | [aStart, aEnd], [bStart, bEnd] => aStart ≤ bEnd ∧ bStart ≤ aEnd
  | _, _ => False

/-- No two distinct stored bookings of the same eventTiming have ranges that
intersect. -/
def SlotsUnique (store : Store) : Prop :=
  ∀ (i j : Nat) (hi : i < store.length) (hj : j < store.length), i ≠ j →
    (store.get ⟨i, hi⟩).eventTiming = (store.get ⟨j, hj⟩).eventTiming →
    ¬ rangesOverlap (store.get ⟨i, hi⟩) (store.get ⟨j, hj⟩)

/-! ## Sample data -/

/-- The time value of midnight UTC on the given day of January 2025. -/
def jan (day : Int) : Int :=
  1735689600000 + (day - 1) * 86400000

/-- A request for the given dates, timing and thali: 10 people, hall charges
1000, one item of price 50 and quantity 4, discount 10. -/
def sampleRequest (startDate endDate : Int) (eventTiming : String)
    (selectedThali : Option String) : CreateRequest :=
  { customerName := some "Asha"
    customerNumber := some "9000000001"
    startDate := some startDate
    endDate := some endDate
    eventType := some "Wedding"
    hallCharges := some 1000
    items := some [{ price := some 50, quantity := some 4 }]
    selectedThali := selectedThali
    numberOfPeople := some 10
    discount := some 10
    paymentStatus := some "Pending"
    eventTiming := some eventTiming }

/-- The sample request with another head count and discount. -/
def pricedRequest (numberOfPeople discount : ℚ) : CreateRequest :=
  { sampleRequest (jan 1) (jan 10) "Evening" (some "Supreme") with
    numberOfPeople := some numberOfPeople
    discount := some discount }

/-- Sample identifiers. -/
def sampleId (n : Nat) : ObjectId :=
  { value := 0x672a1c3e5f1b2c3d4e5f6a00 + n }

/-- A schema that accepts every document. -/
def acceptAll : Booking → Bool :=
  fun _ => true

/-- The first booking: Evening, 1 to 10 January 2025, Supreme. -/
def eveningBooking : Booking :=
  newBooking (sampleId 1) (sampleRequest (jan 1) (jan 10) "Evening" (some "Supreme")) (jan 1) (jan 10)
    (ThaliValue.price 500)

/-- The second booking: Evening, 3 to 5 January 2025, Supreme. -/
def nestedBooking : Booking :=
  newBooking (sampleId 2) (sampleRequest (jan 3) (jan 5) "Evening" (some "Supreme")) (jan 3) (jan 5)
    (ThaliValue.price 500)

/-! ## Lemmas on the collection -/

theorem findById_eq_none {store : Store} {id : ObjectId} (h : ∀ b ∈ store, b.id ≠ id) :
    findById store id = none := by
  unfold findById
  rw [List.find?_eq_none]
  intro b hb
  simpa using h b hb

theorem includes_statuses (status : Option String) :
    includes ["Pending", "Successful"] status = true ↔
      (status = some "Pending" ∨ status = some "Successful") := by
  cases status with
  | none => simp [includes]
  | some v => simp [includes]

/-- The first document with the given id: `findById` returns it and
`updateOne` rewrites it in place. -/
theorem findById_updateOne (f : Booking → Booking) (id : ObjectId) :
    ∀ (store : Store), (∃ b ∈ store, b.id = id) →
      ∃ (i : Nat) (hi : i < store.length),
        (store.get ⟨i, hi⟩).id = id ∧
        findById store id = some (store.get ⟨i, hi⟩) ∧
        updateOne id f store = store.set i (f (store.get ⟨i, hi⟩))
  | [], h => by simp at h
  | b :: rest, h => by
    by_cases hb : b.id = id
    · exact ⟨0, by simp, by simpa using hb, by simp [findById, hb], by simp [updateOne, hb]⟩
    · have hrest : ∃ c ∈ rest, c.id = id := by
        obtain ⟨c, hc, hcid⟩ := h
        rcases List.mem_cons.mp hc with rfl | hc
        · exact absurd hcid hb
        · exact ⟨c, hc, hcid⟩
      obtain ⟨i, hi, h1, h2, h3⟩ := findById_updateOne f id rest hrest
      refine ⟨i + 1, by simpa using hi, by simpa using h1, ?_, ?_⟩
      · have : findById (b :: rest) id = findById rest id := by
          simp [findById, hb]
        rw [this, h2]
        simp
      · simp [updateOne, hb, h3]

theorem slotQuery_eq_true_iff (s e : Int) (timing : Option String) (b : Booking) :
    slotQuery s e timing b = true ↔
      b.eventTiming = timing ∧ ∃ d ∈ b.eventDate, s ≤ d ∧ d ≤ e := by
  simp [slotQuery, and_comm]

theorem findOne_eq_none_iff (store : Store) (filter : Booking → Bool) :
    findOne store filter = none ↔ ∀ b ∈ store, filter b = false := by
  simp [findOne]

theorem findOne_isSome_of_mem {store : Store} {filter : Booking → Bool} {b : Booking}
    (hb : b ∈ store) (hf : filter b = true) : ∃ c, findOne store filter = some c := by
  cases h : findOne store filter with
  | some c => exact ⟨c, rfl⟩
  | none =>
    have := (findOne_eq_none_iff store filter).mp h b hb
    simp [hf] at this

/-- The handler once both dates are valid and in order: the slot query decides
between the conflict answer and the rest. -/
theorem createBooking_of_dates (accepts : Booking → Bool) (newId : ObjectId) (store : Store)
    (req : CreateRequest) (s e : Int)
    (hs : req.startDate = some s) (he : req.endDate = some e) (hle : s ≤ e) :
    createBooking accepts newId store req =
      match findOne store (slotQuery s e req.eventTiming) with
      | some _ => (Response.error 400 Message.slotAlreadyBooked, store)
      | none =>
        if !(thaliPricesGet req.selectedThali).truthy then
          (Response.error 400 Message.invalidThali, store)
        else if accepts (newBooking newId req s e (thaliPricesGet req.selectedThali)) then
          (Response.created (newBooking newId req s e (thaliPricesGet req.selectedThali)),
            store ++ [newBooking newId req s e (thaliPricesGet req.selectedThali)])
        else
          (Response.error 500 Message.failedToCreate, store) := by
  simp only [createBooking, hs, he, not_lt.mpr hle, if_false]

theorem add_num (a b : ℚ) : JSNum.add (JSNum.num a) (JSNum.num b) = roundDouble (a + b) :=
  rfl

theorem sub_num (a b : ℚ) : JSNum.sub (JSNum.num a) (JSNum.num b) = roundDouble (a - b) :=
  rfl

theorem mul_num (a b : ℚ) : JSNum.mul (JSNum.num a) (JSNum.num b) = roundDouble (a * b) :=
  rfl

theorem div100_num (a : ℚ) : JSNum.div100 (JSNum.num a) = roundDouble (a / 100) :=
  rfl

/-! ### Rounding -/

theorem roundHalfEven_error (a : ℚ) : |(roundHalfEven a : ℚ) - a| ≤ 1 / 2 := by
  have h0 := Int.floor_le a
  have h1 := Int.lt_floor_add_one a
  unfold roundHalfEven
  simp only
  split_ifs <;> rw [abs_le] <;> constructor <;> push_cast <;> linarith

/-- A finite result of rounding is within half a unit in the last place of
the rational that was rounded. -/
theorem roundDouble_error (q r : ℚ) (h : roundDouble q = JSNum.num r) :
    abs (r - q) ≤ (2 : ℚ) ^ (exponent (abs q) - 52) / 2 := by
  have hpos : (0 : ℚ) < (2 : ℚ) ^ (exponent (abs q) - 52) := by positivity
  have herr := roundHalfEven_error (abs q / (2 : ℚ) ^ (exponent (abs q) - 52))
  unfold roundDouble at h
  simp only at h
  generalize (2 : ℚ) ^ (exponent (abs q) - 52) = quantum at h hpos herr ⊢
  generalize (roundHalfEven (abs q / quantum) : ℚ) = n at h herr
  have hscale : abs (n * quantum - abs q) ≤ quantum / 2 := by
    have e : n * quantum - abs q = (n - abs q / quantum) * quantum := by
      field_simp
    rw [e, abs_mul, abs_of_pos hpos]
    calc abs (n - abs q / quantum) * quantum ≤ 1 / 2 * quantum :=
          mul_le_mul_of_nonneg_right herr hpos.le
      _ = quantum / 2 := by ring
  split_ifs at h with h1 h2 h2
  · simp only [JSNum.num.injEq] at h
    rw [← h]
    rw [abs_of_pos h2] at hscale
    exact hscale
  · simp only [JSNum.num.injEq] at h
    rw [abs_of_nonpos (not_lt.mp h2)] at hscale
    rw [← h]
    have e : -(n * quantum) - q = -(n * quantum - -q) := by ring
    rw [e, abs_neg]
    exact hscale

theorem roundDouble_tenth :
    roundDouble (1 / 10) = JSNum.num (3602879701896397 / 2 ^ 55) := by
  decide!

theorem roundDouble_tie_to_even :
    roundDouble (2 ^ 53 + 1) = JSNum.num (2 ^ 53) ∧
    roundDouble (2 ^ 53 + 3) = JSNum.num (2 ^ 53 + 4) := by
  decide!

theorem roundDouble_overflow :
    roundDouble (2 ^ 1024 - 2 ^ 971) = JSNum.num (2 ^ 1024 - 2 ^ 971) ∧
    roundDouble (2 ^ 1024 - 2 ^ 970) = JSNum.posInf ∧
    roundDouble (-(2 ^ 1024)) = JSNum.negInf := by
  decide!

theorem roundDouble_subnormal :
    roundDouble (1 / 2 ^ 1074) = JSNum.num (1 / 2 ^ 1074) ∧
    roundDouble (1 / 2 ^ 1075) = JSNum.num 0 ∧
    roundDouble (3 / 2 ^ 1075) = JSNum.num (2 / 2 ^ 1074) := by
  decide!

theorem mul_infinity :
    JSNum.mul JSNum.posInf (JSNum.num (-2)) = JSNum.negInf ∧
    JSNum.mul (JSNum.num 0) JSNum.negInf = JSNum.nan ∧
    JSNum.sub JSNum.posInf JSNum.posInf = JSNum.nan := by
  decide!

theorem roundDouble_ne_nan (q : ℚ) : roundDouble q ≠ JSNum.nan := by
  unfold roundDouble
  simp only
  split_ifs <;> simp

theorem orZero_some (q : ℚ) : orZero (some q) = roundDouble q := by
  unfold orZero
  simp only
  split_ifs with h
  · rfl
  · cases hq : roundDouble q with
    | num x =>
      rw [hq] at h
      simp only [JSNum.truthy, ne_eq, decide_not, Bool.not_eq_true', decide_eq_false_iff_not,
        not_not, Bool.not_eq_true, Bool.not_eq_false'] at h
      simp_all
    | posInf => rw [hq] at h; simp [JSNum.truthy] at h
    | negInf => rw [hq] at h; simp [JSNum.truthy] at h
    | nan => exact absurd hq (roundDouble_ne_nan q)

theorem itemTotal_foldl (pairs : List (ℚ × ℚ)) (acc : JSNum) :
    (pairs.map (fun pq => ({ price := some pq.1, quantity := some pq.2 } : Item))).foldl
        (fun sum item => JSNum.add sum (JSNum.mul (orZero item.price) (orZero item.quantity)))
        acc =
      pairs.foldl
        (fun sum pq => JSNum.add sum (JSNum.mul (roundDouble pq.1) (roundDouble pq.2))) acc := by
  induction pairs generalizing acc with
  | nil => rfl
  | cons pq rest ih => simp only [List.map, List.foldl, orZero_some, ih]

theorem itemTotal_numeric (pairs : List (ℚ × ℚ)) :
    itemTotal (pairs.map (fun pq => ({ price := some pq.1, quantity := some pq.2 } : Item))) =
      pairsTotal pairs := by
  simp only [itemTotal, pairsTotal, itemTotal_foldl]

theorem exactItems_foldl (pairs : List (ℚ × ℚ)) (acc : ℚ) (h : exactItems acc pairs) :
    pairs.foldl
        (fun sum pq => JSNum.add sum (JSNum.mul (roundDouble pq.1) (roundDouble pq.2)))
        (JSNum.num acc) =
      JSNum.num (acc + (pairs.map (fun pq => pq.1 * pq.2)).sum) := by
  induction pairs generalizing acc with
  | nil => simp
  | cons pq rest ih =>
    obtain ⟨h1, h2, h3, h4, h5⟩ := h
    unfold isDouble at h1 h2 h3 h4
    rw [List.foldl_cons, h1, h2, mul_num, h3, add_num, h4, ih _ h5]
    simp [add_assoc]

theorem pairsTotal_exact (pairs : List (ℚ × ℚ)) (h : exactItems 0 pairs) :
    pairsTotal pairs = JSNum.num ((pairs.map (fun pq => pq.1 * pq.2)).sum) := by
  have := exactItems_foldl pairs 0 h
  simpa [pairsTotal] using this

theorem thaliPricesGet_recognized {thali : Option String} {p : ℚ}
    (h : (thali = some "Normal" ∧ p = 200) ∨ (thali = some "Supreme" ∧ p = 500) ∨
      (thali = some "Deluxe" ∧ p = 800)) :
    thaliPricesGet thali = ThaliValue.price p ∧ (ThaliValue.price p).truthy = true := by
  rcases h with ⟨h, hp⟩ | ⟨h, hp⟩ | ⟨h, hp⟩ <;> subst h <;> subst hp <;>
    simp [thaliPricesGet, thaliPrices, List.lookup, ThaliValue.truthy]

/-! ## Theorems -/

/-- C7: a create request whose two dates are valid with the end strictly
before the start is answered with status 400 and the end-before-start message
(InvalidInput), and the collection is unchanged, whatever the other fields of
the request, the collection and the environment are. -/
theorem createBooking_end_before_start (accepts : Booking → Bool) (newId : ObjectId)
    (store : Store) (req : CreateRequest) (s e : Int)
    (hs : req.startDate = some s) (he : req.endDate = some e) (hlt : e < s) :
    createBooking accepts newId store req =
      (Response.error 400 Message.endBeforeStart, store) := by
  simp [createBooking, hs, he, hlt]

/-- C9: for every collection, every id (present or not) and every
paymentStatus other than exactly "Pending" or "Successful" (a missing value
included), updateBooking answers with status 400 and the invalid-status
message (InvalidInput) and leaves the collection unchanged. -/
theorem updateBooking_invalid_status (store : Store) (id : Option ObjectId)
    (paymentStatus : Option String)
    (h1 : paymentStatus ≠ some "Pending") (h2 : paymentStatus ≠ some "Successful") :
    updateBooking store id paymentStatus =
      (Response.error 400 Message.invalidPaymentStatus, store) := by
  have h : includes ["Pending", "Successful"] paymentStatus = false := by
    rw [Bool.eq_false_iff]
    intro hc
    rcases (includes_statuses paymentStatus).mp hc with h | h
    · exact h1 h
    · exact h2 h
  simp [updateBooking, h]

/-- C5 as the code has it: for an id that no stored booking has,
getBookingById and deleteBooking answer 404 "Booking not found." when the id
is an ObjectId, and 500 (the catch branch, after findById throws) when it is
not; updateBooking tests paymentStatus first, so with "Pending" or
"Successful" it answers as the other two do, and with any other value it
answers 400 (invalid payment status); the collection is unchanged in every
case. -/
theorem missing_id_not_found (store : Store) (id : Option ObjectId)
    (paymentStatus : Option String)
    (hid : ∀ b ∈ store, id ≠ some b.id) :
    (id ≠ none →
      getBookingById store id = (Response.error 404 Message.bookingNotFound, store) ∧
      deleteBooking store id = (Response.error 404 Message.bookingNotFound, store) ∧
      (paymentStatus = some "Pending" ∨ paymentStatus = some "Successful" →
        updateBooking store id paymentStatus =
          (Response.error 404 Message.bookingNotFound, store))) ∧
    (id = none →
      getBookingById store id = (Response.error 500 Message.failedToFetch, store) ∧
      deleteBooking store id = (Response.error 500 Message.failedToDelete, store) ∧
      (paymentStatus = some "Pending" ∨ paymentStatus = some "Successful" →
        updateBooking store id paymentStatus =
          (Response.error 500 Message.failedToUpdate, store))) ∧
    (paymentStatus ≠ some "Pending" ∧ paymentStatus ≠ some "Successful" →
      updateBooking store id paymentStatus =
        (Response.error 400 Message.invalidPaymentStatus, store)) := by
  refine ⟨?_, ?_, ?_⟩
  · intro hsome
    cases id with
    | none => exact absurd rfl hsome
    | some oid =>
      have hfind : findById store oid = none :=
        findById_eq_none (fun b hb hbid => hid b hb (by rw [hbid]))
      refine ⟨by simp [getBookingById, hfind], by simp [deleteBooking, hfind], ?_⟩
      intro hst
      have h := (includes_statuses paymentStatus).mpr hst
      simp [updateBooking, h, hfind]
  · intro hnone
    subst hnone
    refine ⟨rfl, rfl, ?_⟩
    intro hst
    have h := (includes_statuses paymentStatus).mpr hst
    simp [updateBooking, h]
  · intro hst
    have h : includes ["Pending", "Successful"] paymentStatus = false := by
      rw [Bool.eq_false_iff]
      intro hc
      rcases (includes_statuses paymentStatus).mp hc with h | h
      · exact hst.1 h
      · exact hst.2 h
    simp [updateBooking, h]

/-- C6: for every collection, every id present in it and every status among
"Pending" and "Successful", updateBooking answers 200 with the updated record,
and the new collection is the old one with that record (the first with the id,
at position i) replaced by itself with paymentStatus set to the status: the
other fields of the record and all other records are as before, and the
number of records is the same. -/
theorem updateBooking_changes_only_paymentStatus (store : Store) (id : ObjectId)
    (status : String)
    (hid : ∃ b ∈ store, b.id = id)
    (hst : status = "Pending" ∨ status = "Successful") :
    ∃ (i : Nat) (hi : i < store.length),
      (store.get ⟨i, hi⟩).id = id ∧
      updateBooking store (some id) (some status) =
        (Response.updated { store.get ⟨i, hi⟩ with paymentStatus := some status },
         store.set i { store.get ⟨i, hi⟩ with paymentStatus := some status }) ∧
      (updateBooking store (some id) (some status)).2.length = store.length ∧
      ∀ j, j ≠ i → (updateBooking store (some id) (some status)).2[j]? = store[j]? := by
  obtain ⟨i, hi, h1, h2, h3⟩ :=
    findById_updateOne (fun b => { b with paymentStatus := some status }) id store hid
  have hinc : includes ["Pending", "Successful"] (some status) = true :=
    (includes_statuses (some status)).mpr (by rcases hst with h | h <;> simp [h])
  have hrun : updateBooking store (some id) (some status) =
      (Response.updated { store.get ⟨i, hi⟩ with paymentStatus := some status },
       store.set i { store.get ⟨i, hi⟩ with paymentStatus := some status }) := by
    simp only [updateBooking, hinc, h2, h3]
    simp
  refine ⟨i, hi, h1, hrun, ?_, ?_⟩
  · rw [hrun]; simp
  · intro j hj
    rw [hrun]
    simp [List.getElem?_set, Ne.symm hj]

/-- C8: for every collection and every create request with valid dates,
end >= start, a thali among Normal, Supreme and Deluxe, and a save that
succeeds, if no stored booking has the eventTiming of the request then
createBooking answers 201 with the new booking and the collection grows by
exactly that booking; nothing is asked of the dates of the stored bookings, so
bookings of another timing may cover the same dates. -/
theorem createBooking_free_timing_succeeds (accepts : Booking → Bool) (newId : ObjectId)
    (store : Store) (req : CreateRequest) (s e : Int)
    (hs : req.startDate = some s) (he : req.endDate = some e) (hle : s ≤ e)
    (hthali : req.selectedThali = some "Normal" ∨ req.selectedThali = some "Supreme" ∨
      req.selectedThali = some "Deluxe")
    (hfree : ∀ b ∈ store, b.eventTiming ≠ req.eventTiming)
    (hsave : accepts (newBooking newId req s e (thaliPricesGet req.selectedThali)) = true) :
    createBooking accepts newId store req =
      (Response.created (newBooking newId req s e (thaliPricesGet req.selectedThali)),
        store ++ [newBooking newId req s e (thaliPricesGet req.selectedThali)]) ∧
    (createBooking accepts newId store req).2.length = store.length + 1 := by
  have hnone : findOne store (slotQuery s e req.eventTiming) = none := by
    rw [findOne_eq_none_iff]
    intro b hb
    rw [Bool.eq_false_iff]
    intro hq
    exact hfree b hb ((slotQuery_eq_true_iff _ _ _ _).mp hq).1
  have htruthy : (thaliPricesGet req.selectedThali).truthy = true := by
    rcases hthali with h | h | h <;> rw [h] <;>
      simp [thaliPricesGet, thaliPrices, List.lookup, ThaliValue.truthy]
  have hrun := createBooking_of_dates accepts newId store req s e hs he hle
  rw [hnone] at hrun
  simp only [htruthy, hsave, Bool.not_true, if_true] at hrun
  simp at hrun
  refine ⟨hrun, ?_⟩
  rw [hrun]
  simp

/-- C10: for every collection and every create request with valid dates and
end >= start, createBooking answers with the slot-already-booked error if and
only if some stored booking with the eventTiming of the request has one of its
stored endpoints (an element of its eventDate, which createBooking writes as
[start, end]) in the closed interval [start, end] of the request; in
particular a request whose range contains the range [D1, D2] of a stored
booking of the same timing is rejected and the collection is unchanged. -/
theorem createBooking_conflict_iff (accepts : Booking → Bool) (newId : ObjectId)
    (store : Store) (req : CreateRequest) (s e : Int)
    (hs : req.startDate = some s) (he : req.endDate = some e) (hle : s ≤ e) :
    ((createBooking accepts newId store req).1 =
        Response.error 400 Message.slotAlreadyBooked ↔
      ∃ b ∈ store, b.eventTiming = req.eventTiming ∧ ∃ d ∈ b.eventDate, s ≤ d ∧ d ≤ e) ∧
    (∀ b ∈ store, ∀ D1 D2 : Int, b.eventDate = [D1, D2] →
      b.eventTiming = req.eventTiming → s ≤ D1 → D1 ≤ D2 → D2 ≤ e →
      createBooking accepts newId store req =
        (Response.error 400 Message.slotAlreadyBooked, store)) := by
  have hrun := createBooking_of_dates accepts newId store req s e hs he hle
  have hiff : (createBooking accepts newId store req).1 =
        Response.error 400 Message.slotAlreadyBooked ↔
      ∃ b ∈ store, b.eventTiming = req.eventTiming ∧ ∃ d ∈ b.eventDate, s ≤ d ∧ d ≤ e := by
    constructor
    · intro hresp
      cases hfind : findOne store (slotQuery s e req.eventTiming) with
      | some c =>
        have hmem : c ∈ store := List.mem_of_find?_eq_some hfind
        have hq : slotQuery s e req.eventTiming c = true := List.find?_some hfind
        exact ⟨c, hmem, (slotQuery_eq_true_iff _ _ _ _).mp hq⟩
      | none =>
        rw [hrun, hfind] at hresp
        exfalso
        revert hresp
        simp only
        split_ifs <;> simp
    · rintro ⟨b, hb, ht, hd⟩
      obtain ⟨c, hc⟩ := findOne_isSome_of_mem hb ((slotQuery_eq_true_iff _ _ _ _).mpr ⟨ht, hd⟩)
      rw [hrun, hc]
  refine ⟨hiff, ?_⟩
  intro b hb D1 D2 hrange ht h1 h12 h2
  obtain ⟨c, hc⟩ := findOne_isSome_of_mem hb ((slotQuery_eq_true_iff s e req.eventTiming b).mpr
    ⟨ht, D1, by simp [hrange], h1, le_trans h12 h2⟩)
  rw [hrun, hc]

/-- C3 as the code has it: for every create request that passes validation
(valid dates, end >= start, thali recognized with unit price p where Normal is
200, Supreme 500 and Deluxe 800, no stored booking matching the slot query,
save accepted) and carries numbers for hallCharges, numberOfPeople, discount
and every item price and quantity, createBooking answers 201 and appends a
booking whose totalPrice is hallCharges + sum of price*quantity +
p*numberOfPeople and whose finalPrice is totalPrice - (discount/100)*totalPrice,
every operation rounded to the nearest double. When no operation of lines
60-62 rounds, totalPrice is the exact rational sum; when totalPrice is the
finite double t and no operation of lines 63-64 rounds, the discount amount is
discount/100 * t and finalPrice is t * (1 - discount/100) exactly. -/
theorem createBooking_final_price (accepts : Booking → Bool) (newId : ObjectId)
    (store : Store) (req : CreateRequest) (s e : Int)
    (hallCharges numberOfPeople discount p : ℚ) (pairs : List (ℚ × ℚ))
    (hs : req.startDate = some s) (he : req.endDate = some e) (hle : s ≤ e)
    (hthali : (req.selectedThali = some "Normal" ∧ p = 200) ∨
      (req.selectedThali = some "Supreme" ∧ p = 500) ∨
      (req.selectedThali = some "Deluxe" ∧ p = 800))
    (hfree : ∀ b ∈ store, ¬ (b.eventTiming = req.eventTiming ∧
      ∃ d ∈ b.eventDate, s ≤ d ∧ d ≤ e))
    (hhall : req.hallCharges = some hallCharges)
    (hpeople : req.numberOfPeople = some numberOfPeople)
    (hdiscount : req.discount = some discount)
    (hitems : req.items = some (pairs.map
      (fun pq => ({ price := some pq.1, quantity := some pq.2 } : Item))))
    (hsave : accepts (newBooking newId req s e (thaliPricesGet req.selectedThali)) = true) :
    ∃ b : Booking,
      createBooking accepts newId store req = (Response.created b, store ++ [b]) ∧
      b.totalPrice =
        JSNum.add (JSNum.add (roundDouble hallCharges) (pairsTotal pairs))
          (JSNum.mul (JSNum.num p) (roundDouble numberOfPeople)) ∧
      b.finalPrice =
        JSNum.sub b.totalPrice
          (JSNum.mul (JSNum.div100 (roundDouble discount)) b.totalPrice) ∧
      (exactTotal hallCharges numberOfPeople p pairs →
        b.totalPrice = JSNum.num
          (hallCharges + (pairs.map (fun pq => pq.1 * pq.2)).sum + p * numberOfPeople)) ∧
      (∀ t : ℚ, b.totalPrice = JSNum.num t → exactDiscount discount t →
        JSNum.mul (JSNum.div100 (roundDouble discount)) b.totalPrice =
          JSNum.num (discount / 100 * t) ∧
        b.finalPrice = JSNum.num (t * (1 - discount / 100))) := by
  have hnone : findOne store (slotQuery s e req.eventTiming) = none := by
    rw [findOne_eq_none_iff]
    intro b hb
    rw [Bool.eq_false_iff]
    intro hq
    exact hfree b hb ((slotQuery_eq_true_iff _ _ _ _).mp hq)
  obtain ⟨hget, htruthy⟩ := thaliPricesGet_recognized hthali
  have hrun := createBooking_of_dates accepts newId store req s e hs he hle
  rw [hnone] at hrun
  rw [hget] at hsave hrun
  simp only [htruthy, hsave, Bool.not_true, if_true] at hrun
  simp at hrun
  have htotal : (newBooking newId req s e (ThaliValue.price p)).totalPrice =
      JSNum.add (JSNum.add (roundDouble hallCharges) (pairsTotal pairs))
        (JSNum.mul (JSNum.num p) (roundDouble numberOfPeople)) := by
    simp only [newBooking, computeTotals, hhall, hpeople, hitems, numberOr, Option.getD_some,
      itemTotal_numeric, ThaliValue.toNumber]
  have hfinal : (newBooking newId req s e (ThaliValue.price p)).finalPrice =
      JSNum.sub (newBooking newId req s e (ThaliValue.price p)).totalPrice
        (JSNum.mul (JSNum.div100 (roundDouble discount))
          (newBooking newId req s e (ThaliValue.price p)).totalPrice) := by
    simp only [newBooking, computeTotals, hdiscount, numberOr]
  refine ⟨newBooking newId req s e (ThaliValue.price p), hrun, htotal, hfinal, ?_, ?_⟩
  · rintro ⟨e1, e2, e3, e4, e5, e6⟩
    unfold isDouble at e1 e2 e3 e5 e6
    rw [htotal, e1, e2, pairsTotal_exact pairs e4, add_num, e5, mul_num, e3, add_num, e6]
  · rintro t ht ⟨d1, d2, d3, d4⟩
    unfold isDouble at d1 d2 d3 d4
    have hamount : JSNum.mul (JSNum.div100 (roundDouble discount))
        (newBooking newId req s e (ThaliValue.price p)).totalPrice =
          JSNum.num (discount / 100 * t) := by
      rw [ht, d1, div100_num, d2, mul_num, d3]
    refine ⟨hamount, ?_⟩
    rw [hfinal, hamount, ht, sub_num, d4]
    congr 1
    ring

theorem thaliPricesGet_unknown {thali : Option String}
    (h : ∀ key, thali = some key →
      key ∉ ["Normal", "Supreme", "Deluxe"] ∧ key ∉ objectPrototypeKeys) :
    thaliPricesGet thali = ThaliValue.undefined := by
  cases thali with
  | none => rfl
  | some key =>
    obtain ⟨h1, h2⟩ := h key rfl
    simp only [List.mem_cons, List.mem_singleton, not_or, List.not_mem_nil, or_false] at h1
    obtain ⟨hn, hsu, hd⟩ := h1
    have e1 : (key == "Normal") = false := by simpa using hn
    have e2 : (key == "Supreme") = false := by simpa using hsu
    have e3 : (key == "Deluxe") = false := by simpa using hd
    simp [thaliPricesGet, thaliPrices, List.lookup, h2, e1, e2, e3]

/-- C4 as the code has it: for every collection and every create request with
valid dates, end >= start and a selectedThali that is missing or names no
member of thaliPrices (none of Normal, Supreme, Deluxe and no name inherited
from Object.prototype), createBooking answers with status 400 and the
collection is unchanged; the slot query runs first, so the answer is the
slot-already-booked error when a stored booking matches it and the
invalid-thali error (InvalidInput) otherwise. -/
theorem createBooking_unknown_thali (accepts : Booking → Bool) (newId : ObjectId)
    (store : Store) (req : CreateRequest) (s e : Int)
    (hs : req.startDate = some s) (he : req.endDate = some e) (hle : s ≤ e)
    (hthali : ∀ key, req.selectedThali = some key →
      key ∉ ["Normal", "Supreme", "Deluxe"] ∧ key ∉ objectPrototypeKeys) :
    (createBooking accepts newId store req).2 = store ∧
    ((∃ b ∈ store, b.eventTiming = req.eventTiming ∧ ∃ d ∈ b.eventDate, s ≤ d ∧ d ≤ e) →
      createBooking accepts newId store req =
        (Response.error 400 Message.slotAlreadyBooked, store)) ∧
    ((¬ ∃ b ∈ store, b.eventTiming = req.eventTiming ∧ ∃ d ∈ b.eventDate, s ≤ d ∧ d ≤ e) →
      createBooking accepts newId store req =
        (Response.error 400 Message.invalidThali, store)) := by
  have hrun := createBooking_of_dates accepts newId store req s e hs he hle
  have hget := thaliPricesGet_unknown hthali
  rw [hget] at hrun
  simp only [ThaliValue.truthy, Bool.not_false, if_true] at hrun
  refine ⟨?_, ?_, ?_⟩
  · rw [hrun]
    cases findOne store (slotQuery s e req.eventTiming) <;> rfl
  · rintro ⟨b, hb, ht, hd⟩
    obtain ⟨c, hc⟩ := findOne_isSome_of_mem hb ((slotQuery_eq_true_iff _ _ _ _).mpr ⟨ht, hd⟩)
    rw [hrun, hc]
  · intro hno
    have hnone : findOne store (slotQuery s e req.eventTiming) = none := by
      rw [findOne_eq_none_iff]
      intro b hb
      rw [Bool.eq_false_iff]
      intro hq
      exact hno ⟨b, hb, (slotQuery_eq_true_iff _ _ _ _).mp hq⟩
    rw [hrun, hnone]

/-! ## The handlers on the sample data -/

/-- C2 on the code: the collection holds the Evening booking for 1 to 10
January, the request asks for 3 to 5 January, Evening, so
D1 <= start <= end <= D2 with the same timing; createBooking answers 201 and
appends a second booking instead of rejecting the request. -/
theorem nested_request_is_created :
    eveningBooking.eventDate = [jan 1, jan 10] ∧
    eveningBooking.eventTiming = some "Evening" ∧
    jan 1 ≤ jan 3 ∧ jan 3 ≤ jan 5 ∧ jan 5 ≤ jan 10 ∧
    createBooking acceptAll (sampleId 2) [eveningBooking]
        (sampleRequest (jan 3) (jan 5) "Evening" (some "Supreme")) =
      (Response.created nestedBooking, [eveningBooking, nestedBooking]) := by
  refine ⟨rfl, rfl, by decide, by decide, by decide, ?_⟩
  rfl

/-- C1 on the code: two create calls from the empty collection, the second
for a range strictly inside the first and the same timing, lead to a
collection with two distinct Evening bookings whose ranges intersect. -/
theorem reachable_store_with_overlapping_slot :
    ∃ store : Store, Reachable store ∧ ¬ SlotsUnique store := by
  refine ⟨[eveningBooking, nestedBooking],
    ⟨[Call.create acceptAll (sampleId 1) (sampleRequest (jan 1) (jan 10) "Evening" (some "Supreme")),
      Call.create acceptAll (sampleId 2) (sampleRequest (jan 3) (jan 5) "Evening" (some "Supreme"))],
      rfl⟩, ?_⟩
  intro h
  exact h 0 1 (by decide) (by decide) (by decide) rfl
    (show jan 1 ≤ jan 5 ∧ jan 3 ≤ jan 10 from ⟨by decide, by decide⟩)

/-- C4 as stated fails: with the Evening booking for 1 to 10 January stored, a
request for the same dates and timing whose thali is "Gold" is answered with
the slot-already-booked error, not with the invalid-thali error. -/
theorem unknown_thali_after_conflict_check :
    "Gold" ∉ ["Normal", "Supreme", "Deluxe"] ∧
    jan 1 ≤ jan 10 ∧
    createBooking acceptAll (sampleId 2) [eveningBooking]
        (sampleRequest (jan 1) (jan 10) "Evening" (some "Gold")) =
      (Response.error 400 Message.slotAlreadyBooked, [eveningBooking]) ∧
    (createBooking acceptAll (sampleId 2) [eveningBooking]
        (sampleRequest (jan 1) (jan 10) "Evening" (some "Gold"))).1 ≠
      Response.error 400 Message.invalidThali := by
  have h : createBooking acceptAll (sampleId 2) [eveningBooking]
        (sampleRequest (jan 1) (jan 10) "Evening" (some "Gold")) =
      (Response.error 400 Message.slotAlreadyBooked, [eveningBooking]) := rfl
  refine ⟨by decide, by decide, h, ?_⟩
  rw [h]
  simp

/-- C5 as stated fails: on the empty collection, updateBooking with an
unknown id and paymentStatus "Cancelled" is answered with status 400 (invalid
payment status), not with 404. -/
theorem update_missing_id_bad_status :
    (∀ b ∈ ([] : Store), some (sampleId 9) ≠ some b.id) ∧
    updateBooking [] (some (sampleId 9)) (some "Cancelled") =
      (Response.error 400 Message.invalidPaymentStatus, []) ∧
    updateBooking [] (some (sampleId 9)) (some "Cancelled") ≠
      (Response.error 404 Message.bookingNotFound, []) := by
  have h : updateBooking [] (some (sampleId 9)) (some "Cancelled") =
      (Response.error 400 Message.invalidPaymentStatus, []) := rfl
  refine ⟨by simp, h, ?_⟩
  rw [h]
  simp

/-- C3 as stated fails: for Supreme, 1 person, hall charges 1000, one item of
price 50 and quantity 4 and discount 55 the request passes validation and the
booking is stored with totalPrice 1700 and finalPrice 765 - 2^-43 (printed
764.9999999999999), because 0.55 * 1700 rounds to 935 + 2^-43; the exact
value (1000 + 50*4 + 500*1) * (1 - 55/100) is 765. -/
theorem final_price_is_rounded :
    createBooking acceptAll (sampleId 1) [] (pricedRequest 1 55) =
      (Response.created
          (newBooking (sampleId 1) (pricedRequest 1 55) (jan 1) (jan 10) (ThaliValue.price 500)),
        [newBooking (sampleId 1) (pricedRequest 1 55) (jan 1) (jan 10) (ThaliValue.price 500)]) ∧
    (newBooking (sampleId 1) (pricedRequest 1 55) (jan 1) (jan 10)
      (ThaliValue.price 500)).totalPrice = JSNum.num 1700 ∧
    (newBooking (sampleId 1) (pricedRequest 1 55) (jan 1) (jan 10)
      (ThaliValue.price 500)).finalPrice = JSNum.num (765 - 1 / 2 ^ 43) ∧
    (newBooking (sampleId 1) (pricedRequest 1 55) (jan 1) (jan 10)
      (ThaliValue.price 500)).finalPrice ≠
        JSNum.num ((1000 + 50 * 4 + 500 * 1) * (1 - 55 / 100)) := by
  refine ⟨rfl, ?_, ?_, ?_⟩
  · decide!
  · decide!
  · decide!

/-- A thali name inherited from Object.prototype passes the test of line 57:
the handler goes on to build a document whose prices are NaN and saves it. -/
theorem inherited_thali_name_reaches_save :
    createBooking acceptAll (sampleId 1) []
        (sampleRequest (jan 1) (jan 10) "Evening" (some "constructor")) =
      (Response.created (newBooking (sampleId 1)
          (sampleRequest (jan 1) (jan 10) "Evening" (some "constructor")) (jan 1) (jan 10)
          ThaliValue.inherited),
        [newBooking (sampleId 1) (sampleRequest (jan 1) (jan 10) "Evening" (some "constructor"))
          (jan 1) (jan 10) ThaliValue.inherited]) ∧
    (newBooking (sampleId 1) (sampleRequest (jan 1) (jan 10) "Evening" (some "constructor"))
      (jan 1) (jan 10) ThaliValue.inherited).finalPrice = JSNum.nan := by
  refine ⟨rfl, ?_⟩
  decide!

/-! ## Instances

Each general theorem above, applied to the sample data. -/

theorem createBooking_end_before_start_witness :
    createBooking acceptAll (sampleId 1) [eveningBooking]
        (sampleRequest (jan 10) (jan 1) "Morning" none) =
      (Response.error 400 Message.endBeforeStart, [eveningBooking]) :=
  createBooking_end_before_start acceptAll (sampleId 1) [eveningBooking]
    (sampleRequest (jan 10) (jan 1) "Morning" none) (jan 10) (jan 1) rfl rfl (by decide)

theorem updateBooking_invalid_status_witness :
    updateBooking [eveningBooking] (some (sampleId 1)) (some "Cancelled") =
      (Response.error 400 Message.invalidPaymentStatus, [eveningBooking]) :=
  updateBooking_invalid_status [eveningBooking] (some (sampleId 1)) (some "Cancelled")
    (by decide) (by decide)

theorem missing_id_not_found_witness :
    (getBookingById [eveningBooking] (some (sampleId 9)) =
        (Response.error 404 Message.bookingNotFound, [eveningBooking]) ∧
      deleteBooking [eveningBooking] (some (sampleId 9)) =
        (Response.error 404 Message.bookingNotFound, [eveningBooking]) ∧
      updateBooking [eveningBooking] (some (sampleId 9)) (some "Successful") =
        (Response.error 404 Message.bookingNotFound, [eveningBooking])) ∧
    (getBookingById [eveningBooking] none =
        (Response.error 500 Message.failedToFetch, [eveningBooking]) ∧
      deleteBooking [eveningBooking] none =
        (Response.error 500 Message.failedToDelete, [eveningBooking]) ∧
      updateBooking [eveningBooking] none (some "Successful") =
        (Response.error 500 Message.failedToUpdate, [eveningBooking])) ∧
    updateBooking [eveningBooking] none (some "Cancelled") =
      (Response.error 400 Message.invalidPaymentStatus, [eveningBooking]) :=
  have h := missing_id_not_found [eveningBooking] (some (sampleId 9)) (some "Successful")
    (by simp [eveningBooking, newBooking, sampleId])
  have k := missing_id_not_found [eveningBooking] none (some "Successful") (by simp)
  have c := missing_id_not_found [eveningBooking] none (some "Cancelled") (by simp)
  have h1 := h.1 (by simp)
  have k1 := k.2.1 rfl
  ⟨⟨h1.1, h1.2.1, h1.2.2 (Or.inr rfl)⟩, ⟨k1.1, k1.2.1, k1.2.2 (Or.inr rfl)⟩,
    c.2.2 ⟨by decide, by decide⟩⟩

theorem updateBooking_changes_only_paymentStatus_witness :
    updateBooking [eveningBooking] (some (sampleId 1)) (some "Successful") =
      (Response.updated { eveningBooking with paymentStatus := some "Successful" },
       [{ eveningBooking with paymentStatus := some "Successful" }]) := by
  obtain ⟨i, hi, _, h, _⟩ := updateBooking_changes_only_paymentStatus [eveningBooking] (sampleId 1)
    "Successful" ⟨eveningBooking, by simp, rfl⟩ (Or.inr rfl)
  have h0 : i = 0 := by simpa using hi
  subst h0
  simpa using h

theorem createBooking_free_timing_succeeds_witness :
    createBooking acceptAll (sampleId 2) [eveningBooking]
        (sampleRequest (jan 1) (jan 10) "Morning" (some "Normal")) =
      (Response.created (newBooking (sampleId 2)
          (sampleRequest (jan 1) (jan 10) "Morning" (some "Normal")) (jan 1) (jan 10)
          (ThaliValue.price 200)),
        [eveningBooking, newBooking (sampleId 2)
          (sampleRequest (jan 1) (jan 10) "Morning" (some "Normal")) (jan 1) (jan 10)
          (ThaliValue.price 200)]) :=
  (createBooking_free_timing_succeeds acceptAll (sampleId 2) [eveningBooking]
    (sampleRequest (jan 1) (jan 10) "Morning" (some "Normal")) (jan 1) (jan 10) rfl rfl
    (by decide) (Or.inl rfl) (by simp [eveningBooking, newBooking, sampleRequest]) rfl).1

theorem createBooking_conflict_iff_witness :
    createBooking acceptAll (sampleId 2) [eveningBooking]
        (sampleRequest (jan 1) (jan 31) "Evening" (some "Normal")) =
      (Response.error 400 Message.slotAlreadyBooked, [eveningBooking]) :=
  (createBooking_conflict_iff acceptAll (sampleId 2) [eveningBooking]
    (sampleRequest (jan 1) (jan 31) "Evening" (some "Normal")) (jan 1) (jan 31) rfl rfl
    (by decide)).2 eveningBooking (by simp) (jan 1) (jan 10) rfl rfl
    (by decide) (by decide) (by decide)

theorem createBooking_final_price_witness :
    (∃ b : Booking,
      createBooking acceptAll (sampleId 1) []
          (sampleRequest (jan 1) (jan 10) "Evening" (some "Supreme")) =
        (Response.created b, [b]) ∧
      b.totalPrice = JSNum.num 6200 ∧
      JSNum.mul (JSNum.div100 (roundDouble 10)) b.totalPrice = JSNum.num 620 ∧
      b.finalPrice = JSNum.num 5580) ∧
    (∃ b : Booking,
      createBooking acceptAll (sampleId 1) [] (pricedRequest 10 25) =
        (Response.created b, [b]) ∧
      b.totalPrice = JSNum.num (1000 + 50 * 4 + 500 * 10) ∧
      b.finalPrice = JSNum.num ((1000 + 50 * 4 + 500 * 10) * (1 - 25 / 100))) := by
  constructor
  · obtain ⟨b, h1, h2, h3, _, _⟩ := createBooking_final_price acceptAll (sampleId 1) []
      (sampleRequest (jan 1) (jan 10) "Evening" (some "Supreme")) (jan 1) (jan 10)
      1000 10 10 500 [(50, 4)] rfl rfl (by decide) (Or.inr (Or.inl ⟨rfl, rfl⟩)) (by simp)
      rfl rfl rfl rfl rfl
    have ht : b.totalPrice = JSNum.num 6200 := by
      rw [h2]
      decide!
    refine ⟨b, by simpa using h1, ht, ?_, ?_⟩
    · rw [ht]
      decide!
    · rw [h3, ht]
      decide!
  · obtain ⟨b, h1, _, _, h4, h5⟩ := createBooking_final_price acceptAll (sampleId 1) []
      (pricedRequest 10 25) (jan 1) (jan 10)
      1000 10 25 500 [(50, 4)] rfl rfl (by decide) (Or.inr (Or.inl ⟨rfl, rfl⟩)) (by simp)
      rfl rfl rfl rfl rfl
    have hexact : exactTotal 1000 10 500 [(50, 4)] := by
      simp only [exactTotal, exactItems, isDouble]
      decide!
    have ht : b.totalPrice = JSNum.num (1000 + 50 * 4 + 500 * 10) := by
      simpa using h4 hexact
    have hdiscount : exactDiscount 25 (1000 + 50 * 4 + 500 * 10) := by
      simp only [exactDiscount, isDouble]
      decide!
    exact ⟨b, by simpa using h1, ht, (h5 _ ht hdiscount).2⟩

theorem createBooking_unknown_thali_witness :
    createBooking acceptAll (sampleId 1) []
        (sampleRequest (jan 1) (jan 10) "Evening" (some "Gold")) =
      (Response.error 400 Message.invalidThali, []) :=
  (createBooking_unknown_thali acceptAll (sampleId 1) []
    (sampleRequest (jan 1) (jan 10) "Evening" (some "Gold")) (jan 1) (jan 10) rfl rfl
    (by decide)
    (by
      intro key hkey
      have hk : key = "Gold" := by
        simp only [sampleRequest, Option.some.injEq] at hkey
        exact hkey.symm
      subst hk
      decide)).2.2 (by simp)

end BookingController
